import Mathlib

/-!
Shallow embedding of the toytcp user-space TCP engine (src/src/tcp.rs):
the connection data model, the SynSent handler, the receive dispatcher,
the event bridge, port selection and the send-parameter initialisation
done by `connect`, together with theorems about them.

Machine integers (`u32` sequence numbers, `u16` ports, IPv4 addresses)
are represented as `Nat`; additions that may overflow are taken modulo
`2 ^ 32` exactly where the Rust code wraps.

The repository ships only `tcp.rs`; the modules `socket.rs`, `packet.rs`
and `tcpflags.rs` it links against are absent, so their declarations
(structures with plain field getters and the standard TCP flag bits) are
modelled from the spec where indicated.
-/

namespace ToyTCP

/-- The 32-bit sequence-number modulus: `u32` arithmetic wraps modulo this. -/
def U32_MOD : Nat := 2 ^ 32

/-- Modelled from the spec: the `tcpflags` module is not under `src/`; the
spec (§6, wire format) lists the control flags {SYN, ACK, FIN, RST, PSH} of
the standard TCP header, whose standard bit positions are used here. -/
def tcpflags.FIN : Nat := 1

def tcpflags.SYN : Nat := 2

def tcpflags.RST : Nat := 4

def tcpflags.PSH : Nat := 8

def tcpflags.ACK : Nat := 16

/-- tcp.rs line 18: `const MAX_TRANSMITTING: u8 = 5;`. -/
def MAX_TRANSMITTING : Nat := 5

/-- tcp.rs line 21: `const PORT_RANGE: Range<u16> = 40000..60000;` (start). -/
def PORT_RANGE_START : Nat := 40000

/-- tcp.rs line 21: `const PORT_RANGE: Range<u16> = 40000..60000;` (end, exclusive). -/
def PORT_RANGE_END : Nat := 60000

/-- tcp.rs line 16: the all-zero wildcard remote address. -/
def UNDETERMINED_IP_ADDR : Nat := 0

/-- tcp.rs line 17: the wildcard remote port. -/
def UNDETERMINED_PORT : Nat := 0

/-- Modelled from the spec: `TcpStatus` lives in the missing `socket.rs`;
the spec (§4.5) lists these states, and `tcp.rs` matches on `SynSent`,
`SynRcvd` and `Established`. -/
inductive TcpStatus where
  | Closed
  | Listen
  | SynSent
  | SynRcvd
  | Established
  | FinWait1
  | FinWait2
  | CloseWait
  | Closing
  | LastAck
  | TimeWait
deriving DecidableEq

/-- The socket-table key: (local addr, remote addr, local port, remote port),
as built at tcp.rs lines 119-124. -/
structure SockID where
  local_addr : Nat
  remote_addr : Nat
  local_port : Nat
  remote_port : Nat
deriving DecidableEq

/-- Modelled from the spec (§3): send-side sequence parameters of a
connection (`socket.rs` is missing; `tcp.rs` reads and writes exactly these
fields of `send_param`). -/
structure SendParam where
  initial_seq : Nat
  unacked_seq : Nat
  next : Nat
  window : Nat
deriving DecidableEq

/-- Modelled from the spec (§3): receive-side sequence parameters. -/
structure RecvParam where
  initial_seq : Nat
  next : Nat
  window : Nat
deriving DecidableEq

/-- Modelled from the spec (§3): a connection record — identity, status and
the two parameter sets — as `tcp.rs` uses it. -/
structure Socket where
  local_addr : Nat
  remote_addr : Nat
  local_port : Nat
  remote_port : Nat
  status : TcpStatus
  send_param : SendParam
  recv_param : RecvParam
deriving DecidableEq

/-- `Socket::get_sock_id` (missing `socket.rs`): the 4-tuple identity of
the socket, in the field order of `SockID`. -/
def Socket.get_sock_id (s : Socket) : SockID :=
  ⟨s.local_addr, s.remote_addr, s.local_port, s.remote_port⟩

/-- Modelled from the spec: `TCPPacket` lives in the missing `packet.rs`;
`tcp.rs` only uses the getters `get_src`, `get_dest`, `get_seq`, `get_ack`,
`get_flag` and `get_window_size`, modelled as the fields below (§6, wire
format). -/
structure TCPPacket where
  src : Nat
  dest : Nat
  seq : Nat
  ack : Nat
  flag : Nat
  window : Nat
deriving DecidableEq

/-- An outbound segment as passed to `Socket::send_tcp_packet(seq, ack,
flag, payload)` (tcp.rs lines 167-172, 177-182, 210). -/
structure OutSegment where
  seq : Nat
  ack : Nat
  flag : Nat
  payload : List Nat
deriving DecidableEq

/-- tcp.rs lines 34-40: the event kinds. The enum has exactly these four
variants. -/
inductive TCPEventKind where
  | ConnectionCompleted
  | Acked
  | DataArrived
  | ConnectionClosed
deriving DecidableEq

/-- tcp.rs lines 28-32: an event pairs a socket id with a kind. -/
structure TCPEvent where
  sock_id : SockID
  kind : TCPEventKind
deriving DecidableEq

/-- Result of one handler invocation: the updated socket, the segments it
sent, and the events it published, in order. -/
structure HandlerResult where
  socket : Socket
  emitted : List OutSegment
  events : List TCPEvent
deriving DecidableEq

/-- The acceptance test of `synsent_handler` (tcp.rs lines 156-159):
ACK flag set, `unacked_seq <= ack`, `ack <= next` (both plain `u32`
comparisons), and SYN flag set. -/
def synsent_accepts (socket : Socket) (packet : TCPPacket) : Bool :=
  decide (packet.flag &&& tcpflags.ACK > 0)
    && decide (socket.send_param.unacked_seq ≤ packet.ack)
    && decide (packet.ack ≤ socket.send_param.next)
    && decide (packet.flag &&& tcpflags.SYN > 0)

/-- Modelled from the spec (§4.2): signed-difference wraparound comparison
of 32-bit sequence numbers, `(b - a) as i32 ≥ 0`. -/
def seq_le_wrap (a b : Nat) : Bool :=
  decide ((b + U32_MOD - a) % U32_MOD < 2 ^ 31)

/-- Modelled from the spec: the SynSent acceptance test as the spec states
it should be, with both sequence comparisons in wraparound semantics; to be
compared against `synsent_accepts`, which is what the code does. -/
def synsent_accepts_wrap (socket : Socket) (packet : TCPPacket) : Bool :=
  decide (packet.flag &&& tcpflags.ACK > 0)
    && seq_le_wrap socket.send_param.unacked_seq packet.ack
    && seq_le_wrap packet.ack socket.send_param.next
    && decide (packet.flag &&& tcpflags.SYN > 0)

/-- `TCP::synsent_handler` (tcp.rs lines 154-187). On a segment passing the
acceptance test it records the peer's ISN, sets `recv.next = seq + 1`
(`u32` wrap), `send.unacked_seq = ack`, `send.window = window`; then, if
the updated `unacked_seq` exceeds `initial_seq`, it moves to Established,
sends a pure ACK `(send.next, recv.next)` and publishes
ConnectionCompleted, else it moves to SynRcvd and sends the same ACK
without an event. A segment failing the test is ignored. -/
def synsent_handler (socket : Socket) (packet : TCPPacket) : HandlerResult :=
  if synsent_accepts socket packet then
    let socket1 : Socket := { socket with
      recv_param := { socket.recv_param with
        next := (packet.seq + 1) % U32_MOD,
        initial_seq := packet.seq },
      send_param := { socket.send_param with
        unacked_seq := packet.ack,
        window := packet.window } }
    if socket1.send_param.unacked_seq > socket1.send_param.initial_seq then
      let socket2 : Socket := { socket1 with status := TcpStatus.Established }
      { socket := socket2,
        emitted := [⟨socket2.send_param.next, socket2.recv_param.next, tcpflags.ACK, []⟩],
        events := [⟨socket2.get_sock_id, TCPEventKind.ConnectionCompleted⟩] }
    else
      let socket2 : Socket := { socket1 with status := TcpStatus.SynRcvd }
      { socket := socket2,
        emitted := [⟨socket2.send_param.next, socket2.recv_param.next, tcpflags.ACK, []⟩],
        events := [] }
  else
    { socket := socket, emitted := [], events := [] }

/-- `TCP::publish_event` (tcp.rs lines 82-87): store the new event in the
single mailbox slot, unconditionally overwriting whatever was there. -/
def publish_event (mailbox : Option TCPEvent) (sock_id : SockID)
    (kind : TCPEventKind) : Option TCPEvent :=
  let _ := mailbox
  some ⟨sock_id, kind⟩

/-- The unblocking test of `TCP::wait_event` (tcp.rs lines 68-76): the
mailbox holds an event matching both the socket id and the kind. -/
def wait_matches (mailbox : Option TCPEvent) (sock_id : SockID)
    (kind : TCPEventKind) : Bool :=
  match mailbox with
  | some e => decide (e.sock_id = sock_id) && decide (e.kind = kind)
  | none => false

/-- One observation of the mailbox by `TCP::wait_event`: `some mailbox2`
when the waiter unblocks, leaving the mailbox in state `mailbox2` (the code
sets it to `None`, tcp.rs line 78); `none` when it keeps waiting. -/
def wait_step (mailbox : Option TCPEvent) (sock_id : SockID)
    (kind : TCPEventKind) : Option (Option TCPEvent) :=
  if wait_matches mailbox sock_id kind then some none else none

/-- Socket lookup of the receive dispatcher (tcp.rs lines 118-135): exact
4-tuple first, then the wildcard-remote fallback; returns the key under
which the socket was found together with the socket. -/
def lookup_socket (table : SockID → Option Socket) (local_addr remote_addr : Nat)
    (packet : TCPPacket) : Option (SockID × Socket) :=
  match table ⟨local_addr, remote_addr, packet.dest, packet.src⟩ with
  | some s => some (⟨local_addr, remote_addr, packet.dest, packet.src⟩, s)
  | none =>
    match table ⟨local_addr, UNDETERMINED_IP_ADDR, packet.dest, UNDETERMINED_PORT⟩ with
    | some s => some (⟨local_addr, UNDETERMINED_IP_ADDR, packet.dest, UNDETERMINED_PORT⟩, s)
    | none => none

/-- One iteration of `TCP::receive_handler` on a parsed segment (tcp.rs
lines 118-150): look the socket up (continue silently if none), drop the
segment if the checksum fails, and otherwise dispatch on the socket's
status — `SynSent` goes to `synsent_handler`, every other status is logged
and ignored. `checksum_ok` stands for `TCPPacket::is_correct_checksum`,
which lives in the missing `packet.rs`, so it is kept as a parameter. -/
def receive_step (checksum_ok : Nat → Nat → TCPPacket → Bool)
    (table : SockID → Option Socket) (local_addr remote_addr : Nat)
    (packet : TCPPacket) :
    (SockID → Option Socket) × List OutSegment × List TCPEvent :=
  match lookup_socket table local_addr remote_addr packet with
  | none => (table, [], [])
  | some (key, socket) =>
    if checksum_ok local_addr remote_addr packet then
      match socket.status with
      | TcpStatus.SynSent =>
        let r := synsent_handler socket packet
        (fun id => if id = key then some r.socket else table id, r.emitted, r.events)
      | _ => (table, [], [])
    else
      (table, [], [])

/-- The send-parameter initialisation done by `connect` (tcp.rs lines
209-212): choose the ISN, send `SYN{seq = initial_seq}`, set
`unacked_seq = initial_seq` and `next = initial_seq + 1` (`u32` wrap).
Returns the updated socket and the emitted SYN segment. -/
def connect_init (isn : Nat) (socket : Socket) : Socket × OutSegment :=
  let socket1 : Socket :=
    { socket with send_param := { socket.send_param with initial_seq := isn } }
  let seg : OutSegment := ⟨socket1.send_param.initial_seq, 0, tcpflags.SYN, []⟩
  let socket2 : Socket := { socket1 with send_param := { socket1.send_param with
      unacked_seq := socket1.send_param.initial_seq,
      next := (socket1.send_param.initial_seq + 1) % U32_MOD } }
  (socket2, seg)

/-- The tail of `connect` (tcp.rs lines 217-218): once
`wait_event(sock_id, ConnectionCompleted)` returns, `connect` returns
`Ok(sock_id)`; there is no error path after the socket is inserted. -/
def connect_result (sock_id : SockID) : Except String SockID :=
  Except.ok sock_id

/-- Whether a candidate local port collides with no existing socket-table
key: `table.keys().all(|k| local_port != k.2)` (tcp.rs line 193). -/
def port_available (keys : List SockID) (local_port : Nat) : Bool :=
  keys.all fun k => decide (local_port ≠ k.local_port)

/-- The bounded retry loop of `select_unused_port` (tcp.rs lines 190-196):
`samples i` is the value drawn from `rng.gen_range(PORT_RANGE)` on the
i-th attempt; `fuel` counts the remaining attempts. -/
def select_loop (samples : Nat → Nat) (keys : List SockID) :
    Nat → Nat → Except String Nat
  | 0, _ => Except.error "no available port found."
  | Nat.succ fuel, i =>
    if port_available keys (samples i) then Except.ok (samples i)
    else select_loop samples keys fuel (i + 1)

/-- `TCP::select_unused_port` (tcp.rs lines 189-198): up to
`PORT_RANGE.end - PORT_RANGE.start` attempts, then an explicit
"no available port found." error. -/
def select_unused_port (samples : Nat → Nat) (keys : List SockID) :
    Except String Nat :=
  select_loop samples keys (PORT_RANGE_END - PORT_RANGE_START) 0

/-- Send-parameter states reachable by the engine in the material under
verification: a socket freshly initialised by `connect` with an ISN drawn
from `rng.gen_range(1..1 << 31)` (tcp.rs line 209), and anything the
SynSent handler produces from a reachable state. -/
inductive ReachableSock : Socket → Prop where
  | init (isn : Nat) (socket : Socket) (h1 : 1 ≤ isn) (h2 : isn < 1 <<< 31) :
      ReachableSock (connect_init isn socket).1
  | step (socket : Socket) (packet : TCPPacket) (hs : ReachableSock socket) :
      ReachableSock (synsent_handler socket packet).socket

/-- A fixed base socket used to build concrete test states. -/
def sock0 : Socket :=
  { local_addr := 0x0A000001, remote_addr := 0x0A000002,
    local_port := 40000, remote_port := 80,
    status := TcpStatus.SynSent,
    send_param := ⟨0, 0, 0, 0⟩, recv_param := ⟨0, 0, 0⟩ }

/-- Concrete SynSent socket after `connect` chose ISN 1000. -/
def c1_sock : Socket :=
  { sock0 with status := TcpStatus.SynSent, send_param := ⟨1000, 1000, 1001, 0⟩ }

/-- Concrete SYN+ACK segment `{seq = 500, ack = 1001}` (flag 18 = SYN ∣ ACK). -/
def c1_packet : TCPPacket := ⟨80, 40000, 500, 1001, 18, 1024⟩

/-- C1: in SynSent, a segment with SYN and ACK set whose ack satisfies
`unacked_seq ≤ ack ≤ next` makes the handler record the peer's ISN, set
`recv.next = peer_seq + 1` and `send.unacked_seq = ack`; when that ack
exceeds `send.initial_seq` the socket moves to Established, a pure ACK with
`seq = send.next` and `ack = recv.next` is emitted, and a
ConnectionCompleted event is published — an event on which the blocked
`connect` caller's wait test succeeds. -/
theorem synsent_synack_establishes (socket : Socket) (packet : TCPPacket)
    (hACK : packet.flag &&& tcpflags.ACK > 0)
    (hSYN : packet.flag &&& tcpflags.SYN > 0)
    (hlo : socket.send_param.unacked_seq ≤ packet.ack)
    (hhi : packet.ack ≤ socket.send_param.next) :
    (synsent_handler socket packet).socket.recv_param.initial_seq = packet.seq ∧
    (synsent_handler socket packet).socket.recv_param.next = (packet.seq + 1) % U32_MOD ∧
    (synsent_handler socket packet).socket.send_param.unacked_seq = packet.ack ∧
    (packet.ack > socket.send_param.initial_seq →
      (synsent_handler socket packet).socket.status = TcpStatus.Established ∧
      (synsent_handler socket packet).emitted =
        [⟨socket.send_param.next, (packet.seq + 1) % U32_MOD, tcpflags.ACK, []⟩] ∧
      (synsent_handler socket packet).events =
        [⟨socket.get_sock_id, TCPEventKind.ConnectionCompleted⟩] ∧
      ∀ mailbox, wait_matches
        (publish_event mailbox socket.get_sock_id TCPEventKind.ConnectionCompleted)
        socket.get_sock_id TCPEventKind.ConnectionCompleted = true) := by
  have hacc : synsent_accepts socket packet = true := by
    simp [synsent_accepts, hACK, hSYN, hlo, hhi]
  by_cases hgt : packet.ack > socket.send_param.initial_seq
  · simp [synsent_handler, hacc, hgt, Socket.get_sock_id, publish_event, wait_matches]
  · simp [synsent_handler, hacc, hgt]

/-- C1 witness: with ISN 1000, receiving `SYN+ACK{seq = 500, ack = 1001}`
yields Established and the emitted pure ACK `{seq = 1001, ack = 501}`. -/
theorem synsent_synack_establishes_witness :
    (synsent_handler c1_sock c1_packet).socket.status = TcpStatus.Established ∧
    (synsent_handler c1_sock c1_packet).emitted = [⟨1001, 501, tcpflags.ACK, []⟩] ∧
    (synsent_handler c1_sock c1_packet).events =
      [⟨c1_sock.get_sock_id, TCPEventKind.ConnectionCompleted⟩] := by
  have T := synsent_synack_establishes c1_sock c1_packet (by decide) (by decide)
    (by decide) (by decide)
  have T2 := T.2.2.2 (by decide)
  refine ⟨T2.1, ?_, T2.2.2.1⟩
  rw [T2.2.1]
  decide

/-- Concrete SynSent socket whose send window straddles the 2^32 boundary:
`unacked_seq = 0xFFFFFFF0`, `next = 0x10`. -/
def c2_sock : Socket :=
  { sock0 with send_param := ⟨0xFFFFFFF0, 0xFFFFFFF0, 0x10, 0⟩ }

/-- Concrete SYN+ACK whose ack `0x1` is ahead of `unacked_seq = 0xFFFFFFF0`
in wraparound sequence space but numerically below it. -/
def c2_packet : TCPPacket := ⟨80, 40000, 0xFFFFFFFF, 1, 18, 1024⟩

/-- C2 counterexample: the SynSent acceptance test does not use
signed-difference wraparound comparison — on a state and segment straddling
the 2^32 boundary the wraparound test accepts but the code's raw unsigned
test rejects, and the handler does nothing. -/
theorem synsent_accepts_not_wraparound :
    synsent_accepts_wrap c2_sock c2_packet = true ∧
    synsent_accepts c2_sock c2_packet = false ∧
    synsent_handler c2_sock c2_packet = ⟨c2_sock, [], []⟩ := by decide

/-- C2 amended: the SynSent acceptance test compares sequence numbers with
raw unsigned `≤`: every segment whose ack is numerically below
`unacked_seq` is rejected and ignored, even when wraparound semantics judge
the ack ahead. -/
theorem synsent_raw_comparison_rejects (socket : Socket) (packet : TCPPacket)
    (h : packet.ack < socket.send_param.unacked_seq) :
    synsent_accepts socket packet = false ∧
    synsent_handler socket packet = ⟨socket, [], []⟩ := by
  have hf : synsent_accepts socket packet = false := by
    simp [synsent_accepts, Nat.not_le.mpr h]
  exact ⟨hf, by simp [synsent_handler, hf]⟩

/-- C2 amended witness: the straddling state of the counterexample is
rejected by the code's raw comparison. -/
theorem synsent_raw_comparison_rejects_witness :
    synsent_accepts c2_sock c2_packet = false ∧
    synsent_handler c2_sock c2_packet = ⟨c2_sock, [], []⟩ :=
  synsent_raw_comparison_rejects c2_sock c2_packet (by decide)

/-- Concrete SynSent socket after `connect` chose ISN 1000, for the
simultaneous-open scenario. -/
def c3_sock : Socket :=
  { sock0 with send_param := ⟨1000, 1000, 1001, 0⟩ }

/-- Concrete bare SYN `{seq = 500}`: SYN set, ACK clear (flag 2). -/
def c3_packet : TCPPacket := ⟨80, 40000, 500, 0, 2, 1024⟩

/-- C3 counterexample: after sending `SYN{seq = 1000}`, receiving the bare
`SYN{seq = 500}` does not move the socket to SynRcvd — it stays in SynSent
and nothing is emitted or published. -/
theorem bare_syn_not_synrcvd :
    (synsent_handler c3_sock c3_packet).socket.status ≠ TcpStatus.SynRcvd ∧
    (synsent_handler c3_sock c3_packet).socket.status = TcpStatus.SynSent ∧
    (synsent_handler c3_sock c3_packet).emitted = [] ∧
    (synsent_handler c3_sock c3_packet).events = [] := by decide

/-- C3 amended: in SynSent, a segment without the ACK flag — in particular a
bare SYN — fails the acceptance test and is ignored entirely: the socket is
unchanged, no segment is emitted, no event is published. -/
theorem bare_syn_ignored (socket : Socket) (packet : TCPPacket)
    (h : packet.flag &&& tcpflags.ACK = 0) :
    synsent_handler socket packet = ⟨socket, [], []⟩ := by
  have hf : synsent_accepts socket packet = false := by
    simp [synsent_accepts, h]
  simp [synsent_handler, hf]

/-- C3 amended witness: the concrete bare SYN of the counterexample is
ignored. -/
theorem bare_syn_ignored_witness :
    synsent_handler c3_sock c3_packet = ⟨c3_sock, [], []⟩ :=
  bare_syn_ignored c3_sock c3_packet (by decide)

/-- The raw send invariant the fragment maintains: `unacked_seq` never
exceeds `next` and never lags it by more than the single SYN byte. -/
def SendInv (s : Socket) : Prop :=
  s.send_param.unacked_seq ≤ s.send_param.next ∧
  s.send_param.next - s.send_param.unacked_seq ≤ 1

theorem connect_init_send_inv (isn : Nat) (socket : Socket)
    (h2 : isn < 1 <<< 31) : SendInv (connect_init isn socket).1 := by
  have hs : (1 <<< 31 : Nat) = 2147483648 := by
    rw [Nat.shiftLeft_eq]
  have hM : U32_MOD = 4294967296 := by norm_num [U32_MOD]
  rw [hs] at h2
  have hmod : (isn + 1) % U32_MOD = isn + 1 := by
    rw [hM]; exact Nat.mod_eq_of_lt (by omega)
  constructor <;> simp [connect_init, hmod]

theorem synsent_handler_send_of_accepts (socket : Socket) (packet : TCPPacket)
    (hacc : synsent_accepts socket packet = true) :
    (synsent_handler socket packet).socket.send_param.unacked_seq = packet.ack ∧
    (synsent_handler socket packet).socket.send_param.next = socket.send_param.next := by
  by_cases hgt : packet.ack > socket.send_param.initial_seq
  · simp [synsent_handler, hacc, hgt]
  · simp [synsent_handler, hacc, hgt]

theorem synsent_handler_send_inv (socket : Socket) (packet : TCPPacket)
    (h : SendInv socket) : SendInv (synsent_handler socket packet).socket := by
  obtain ⟨h1, h2⟩ := h
  by_cases hacc : synsent_accepts socket packet = true
  · have hb := hacc
    simp only [synsent_accepts, Bool.and_eq_true, decide_eq_true_eq] at hb
    have hlo : socket.send_param.unacked_seq ≤ packet.ack := hb.1.1.2
    have hhi : packet.ack ≤ socket.send_param.next := hb.1.2
    obtain ⟨hu, hn⟩ := synsent_handler_send_of_accepts socket packet hacc
    constructor
    · rw [hu, hn]; exact hhi
    · rw [hu, hn]; omega
  · have hf : synsent_accepts socket packet = false := by
      cases hb : synsent_accepts socket packet
      · rfl
      · exact absurd hb hacc
    simp [synsent_handler, hf]
    exact ⟨h1, h2⟩

theorem reachable_send_inv (socket : Socket) (h : ReachableSock socket) :
    SendInv socket := by
  induction h with
  | init isn base h1 h2 => exact connect_init_send_inv isn base h2
  | step s p hs ih => exact synsent_handler_send_inv s p ih

/-- C4: after `connect`'s initialisation and after every segment the SynSent
handler processes, the send parameters satisfy `unacked_seq ≤ next` under
the modular (wraparound-aware) comparison of the 32-bit sequence space. -/
theorem reachable_unacked_le_next_wrap (socket : Socket)
    (h : ReachableSock socket) :
    seq_le_wrap socket.send_param.unacked_seq socket.send_param.next = true := by
  obtain ⟨h1, h2⟩ := reachable_send_inv socket h
  have hM : U32_MOD = 4294967296 := by norm_num [U32_MOD]
  have h31 : (2 : Nat) ^ 31 = 2147483648 := by norm_num
  simp only [seq_le_wrap, decide_eq_true_eq, hM, h31]
  omega

/-- C4 witness: the invariant holds for a socket freshly initialised by
`connect` with ISN 1000. -/
theorem reachable_unacked_le_next_wrap_witness :
    seq_le_wrap (connect_init 1000 sock0).1.send_param.unacked_seq
      (connect_init 1000 sock0).1.send_param.next = true :=
  reachable_unacked_le_next_wrap _
    (ReachableSock.init 1000 sock0 (by decide) (by decide))

/-- C5: a segment whose checksum does not verify is discarded before any
state handler runs — the receive step leaves the socket table untouched,
emits no segment and publishes no event, whatever the checksum predicate,
table and segment are. -/
theorem checksum_fail_no_effect (checksum_ok : Nat → Nat → TCPPacket → Bool)
    (table : SockID → Option Socket) (local_addr remote_addr : Nat)
    (packet : TCPPacket)
    (h : checksum_ok local_addr remote_addr packet = false) :
    receive_step checksum_ok table local_addr remote_addr packet
      = (table, [], []) := by
  unfold receive_step
  cases hl : lookup_socket table local_addr remote_addr packet with
  | none => rfl
  | some ks =>
    obtain ⟨key, s⟩ := ks
    simp [h]

/-- A fixed inbound segment used by concrete dispatcher tests. -/
def c5_packet : TCPPacket := ⟨80, 40000, 7, 8, 16, 0⟩

/-- C5 witness: with an always-failing checksum the receive step is a no-op
on a concrete one-socket table. -/
theorem checksum_fail_no_effect_witness :
    receive_step (fun _ _ _ => false) (fun _ => some sock0) 1 2 c5_packet
      = ((fun _ => some sock0), [], []) :=
  checksum_fail_no_effect (fun _ _ _ => false) (fun _ => some sock0) 1 2
    c5_packet rfl

theorem lookup_socket_eq (table : SockID → Option Socket)
    (local_addr remote_addr : Nat) (packet : TCPPacket)
    (key : SockID) (socket : Socket)
    (h : lookup_socket table local_addr remote_addr packet = some (key, socket)) :
    table key = some socket := by
  unfold lookup_socket at h
  cases h1 : table ⟨local_addr, remote_addr, packet.dest, packet.src⟩ with
  | some s =>
    rw [h1] at h
    simp only [Option.some.injEq, Prod.mk.injEq] at h
    rw [← h.1, h1, h.2]
  | none =>
    rw [h1] at h
    cases h2 : table ⟨local_addr, UNDETERMINED_IP_ADDR, packet.dest, UNDETERMINED_PORT⟩ with
    | some s =>
      rw [h2] at h
      simp only [Option.some.injEq, Prod.mk.injEq] at h
      rw [← h.1, h2, h.2]
    | none =>
      rw [h2] at h
      exact absurd h (by simp)

/-- C6: a segment the owning connection's state does not expect — a state
with no implemented handler, or SynSent with the acceptance test failing —
is ignored: the whole table (this connection and every other) is unchanged,
nothing is emitted and no event is published, and the step returns
normally so the receive loop goes on. -/
theorem unexpected_segment_ignored (checksum_ok : Nat → Nat → TCPPacket → Bool)
    (table : SockID → Option Socket) (local_addr remote_addr : Nat)
    (packet : TCPPacket) (key : SockID) (socket : Socket)
    (hl : lookup_socket table local_addr remote_addr packet = some (key, socket))
    (h : socket.status ≠ TcpStatus.SynSent ∨ synsent_accepts socket packet = false) :
    receive_step checksum_ok table local_addr remote_addr packet
      = (table, [], []) := by
  have hkey := lookup_socket_eq table local_addr remote_addr packet key socket hl
  have htab : (fun id => if id = key then some socket else table id) = table := by
    funext id
    by_cases hid : id = key
    · rw [if_pos hid, hid, hkey]
    · rw [if_neg hid]
  unfold receive_step
  rw [hl]
  by_cases hck : checksum_ok local_addr remote_addr packet = true
  · rcases h with hne | hf
    · cases hst : socket.status <;>
        first
          | exact absurd hst hne
          | simp [hck, hst]
    · have hh : synsent_handler socket packet = ⟨socket, [], []⟩ := by
        simp [synsent_handler, hf]
      cases hst : socket.status <;> simp [hck, hst, hh, htab]
  · simp [hck]

/-- Key of the concrete Established-state connection used by the C6 witness. -/
def c6_key : SockID := ⟨1, 2, 40000, 80⟩

/-- A connection in Established state, for which `tcp.rs` has no handler. -/
def c6_sock : Socket := { sock0 with status := TcpStatus.Established }

/-- One-socket table holding the Established connection. -/
def c6_table : SockID → Option Socket :=
  fun id => if id = c6_key then some c6_sock else none

/-- Valid-checksum segment addressed to the Established connection. -/
def c6_packet : TCPPacket := ⟨80, 40000, 3, 4, 16, 0⟩

/-- C6 witness: a segment for a connection in Established state — a state
the fragment implements no handler for — leaves the concrete table
unchanged and produces no output. -/
theorem unexpected_segment_ignored_witness :
    receive_step (fun _ _ _ => true) c6_table 1 2 c6_packet
      = (c6_table, [], []) :=
  unexpected_segment_ignored (fun _ _ _ => true) c6_table 1 2 c6_packet
    c6_key c6_sock (by decide) (Or.inl (by decide))

/-- C7 counterexample: `TCPEventKind` (tcp.rs lines 34-40) has no
ConnectionAborted variant — no event kind distinct from the four declared
ones exists, so no ConnectionAborted event can ever be published. -/
theorem no_connection_aborted_kind :
    ¬ ∃ k : TCPEventKind, k ≠ TCPEventKind.ConnectionCompleted ∧
      k ≠ TCPEventKind.Acked ∧ k ≠ TCPEventKind.DataArrived ∧
      k ≠ TCPEventKind.ConnectionClosed := by
  rintro ⟨k, h1, h2, h3, h4⟩
  cases k
  · exact h1 rfl
  · exact h2 rfl
  · exact h3 rfl
  · exact h4 rfl

/-- C7 amended: the fragment declares the retry bound `MAX_TRANSMITTING = 5`
but contains no retransmission engine; every publishable event kind is one
of the four declared ones (none is an abort kind), and once its wait
returns, the tail of `connect` yields success unconditionally — a caller
blocked on a dead connection is never handed an explicit abort failure. -/
theorem event_kinds_exhaustive_connect_ok :
    MAX_TRANSMITTING = 5 ∧
    (∀ k : TCPEventKind, k = TCPEventKind.ConnectionCompleted ∨
      k = TCPEventKind.Acked ∨ k = TCPEventKind.DataArrived ∨
      k = TCPEventKind.ConnectionClosed) ∧
    (∀ sock_id : SockID, connect_result sock_id = Except.ok sock_id) := by
  refine ⟨rfl, fun k => ?_, fun _ => rfl⟩
  cases k
  · exact Or.inl rfl
  · exact Or.inr (Or.inl rfl)
  · exact Or.inr (Or.inr (Or.inl rfl))
  · exact Or.inr (Or.inr (Or.inr rfl))

/-- C8: the event bridge is a single-slot mailbox — a second publish
overwrites the first unconsumed event entirely, and the waiter's step
returns exactly when the slot holds an event matching both the socket id
and the kind, leaving the slot empty afterwards. -/
theorem event_bridge_single_slot (mailbox : Option TCPEvent)
    (id1 id2 : SockID) (k1 k2 : TCPEventKind) :
    publish_event (publish_event mailbox id1 k1) id2 k2 = some ⟨id2, k2⟩ ∧
    (∀ mailbox2, wait_step mailbox id1 k1 = some mailbox2 →
      mailbox = some ⟨id1, k1⟩ ∧ mailbox2 = none) := by
  refine ⟨rfl, fun mailbox2 h => ?_⟩
  unfold wait_step at h
  cases hm : wait_matches mailbox id1 k1 with
  | false =>
    rw [hm] at h
    simp at h
  | true =>
    rw [hm] at h
    simp at h
    refine ⟨?_, h.symm⟩
    cases mailbox with
    | none => simp [wait_matches] at hm
    | some e =>
      simp [wait_matches] at hm
      obtain ⟨ha, hb⟩ := hm
      cases e
      simp_all

/-- Socket id used by the event-bridge witness (first publish). -/
def c8_id1 : SockID := ⟨1, 2, 40000, 80⟩

/-- Socket id used by the event-bridge witness (second publish). -/
def c8_id2 : SockID := ⟨1, 3, 40001, 80⟩

/-- C8 witness: two back-to-back publishes leave only the second event in
the mailbox, and a successful wait on a matching slot consumes it. -/
theorem event_bridge_single_slot_witness :
    publish_event (publish_event (some ⟨c8_id1, TCPEventKind.ConnectionCompleted⟩)
        c8_id1 TCPEventKind.ConnectionCompleted) c8_id2 TCPEventKind.Acked =
      some ⟨c8_id2, TCPEventKind.Acked⟩ ∧
    (some ⟨c8_id1, TCPEventKind.ConnectionCompleted⟩ =
        some (⟨c8_id1, TCPEventKind.ConnectionCompleted⟩ : TCPEvent) ∧
      (none : Option TCPEvent) = none) := by
  have T := event_bridge_single_slot
    (some ⟨c8_id1, TCPEventKind.ConnectionCompleted⟩)
    c8_id1 c8_id2 TCPEventKind.ConnectionCompleted TCPEventKind.Acked
  exact ⟨T.1, T.2 none (by decide)⟩

theorem select_loop_ok (samples : Nat → Nat) (keys : List SockID) :
    ∀ fuel i p, select_loop samples keys fuel i = Except.ok p →
      ∃ j, i ≤ j ∧ j < i + fuel ∧ p = samples j ∧
        port_available keys p = true := by
  intro fuel
  induction fuel with
  | zero =>
    intro i p h
    exact absurd h (by simp [select_loop])
  | succ fuel ih =>
    intro i p h
    simp only [select_loop] at h
    split at h
    case isTrue hav =>
      injection h with h
      exact ⟨i, Nat.le_refl i, by omega, h.symm, h ▸ hav⟩
    case isFalse hav =>
      obtain ⟨j, hj1, hj2, hj3, hj4⟩ := ih (i + 1) p h
      exact ⟨j, by omega, by omega, hj3, hj4⟩

theorem select_loop_err (samples : Nat → Nat) (keys : List SockID)
    (hall : ∀ i, port_available keys (samples i) = false) :
    ∀ fuel i, select_loop samples keys fuel i
      = Except.error "no available port found." := by
  intro fuel
  induction fuel with
  | zero => intro i; rfl
  | succ fuel ih =>
    intro i
    simp only [select_loop, hall i]
    simp only [Bool.false_eq_true, if_false]
    exact ih (i + 1)

theorem port_available_spec (keys : List SockID) (p : Nat)
    (h : port_available keys p = true) : ∀ k ∈ keys, p ≠ k.local_port := by
  intro k hk
  have hall := List.all_eq_true.mp h k hk
  exact of_decide_eq_true hall

/-- C9: port selection samples the configured ephemeral range, never
returns a port an existing socket already uses as its local port, draws
the returned port from one of the first `PORT_RANGE_END -
PORT_RANGE_START` samples (at most range-size attempts), and when every
attempt is rejected fails explicitly with "no available port found."
instead of looping unbounded. -/
theorem select_unused_port_spec (samples : Nat → Nat) (keys : List SockID)
    (hr : ∀ i, PORT_RANGE_START ≤ samples i ∧ samples i < PORT_RANGE_END) :
    (∀ p, select_unused_port samples keys = Except.ok p →
      (PORT_RANGE_START ≤ p ∧ p < PORT_RANGE_END) ∧
      (∀ k ∈ keys, p ≠ k.local_port) ∧
      ∃ j, j < PORT_RANGE_END - PORT_RANGE_START ∧ p = samples j) ∧
    ((∀ i, port_available keys (samples i) = false) →
      select_unused_port samples keys
        = Except.error "no available port found.") := by
  constructor
  · intro p h
    obtain ⟨j, hj1, hj2, hj3, hj4⟩ :=
      select_loop_ok samples keys (PORT_RANGE_END - PORT_RANGE_START) 0 p h
    refine ⟨by rw [hj3]; exact hr j, port_available_spec keys p hj4,
      ⟨j, by omega, hj3⟩⟩
  · intro hall
    exact select_loop_err samples keys hall (PORT_RANGE_END - PORT_RANGE_START) 0

/-- C9 witness: a constant in-range sampler on an empty socket table yields
an in-range port colliding with nothing, drawn within the attempt bound. -/
theorem select_unused_port_spec_witness :
    (PORT_RANGE_START ≤ 40000 ∧ 40000 < PORT_RANGE_END) ∧
    (∀ k ∈ ([] : List SockID), 40000 ≠ k.local_port) ∧
    ∃ j, j < PORT_RANGE_END - PORT_RANGE_START ∧
      40000 = (fun _ : Nat => 40000) j := by
  have T := select_unused_port_spec (fun _ => 40000) []
    (fun _ => ⟨Nat.le_refl 40000, by norm_num [PORT_RANGE_END]⟩)
  exact T.1 40000 rfl

/-- C10: with the ISN drawn from `1..(1 << 31)` as `connect` draws it, the
initialised socket's `initial_seq` is never 0 and stays below `2^31`, the
emitted SYN carries that ISN, and `next = initial_seq + 1` does not wrap
the 32-bit sequence space. -/
theorem connect_isn_range_no_wrap (isn : Nat) (base : Socket)
    (h1 : 1 ≤ isn) (h2 : isn < 1 <<< 31) :
    (connect_init isn base).1.send_param.initial_seq ≠ 0 ∧
    (connect_init isn base).1.send_param.initial_seq < 1 <<< 31 ∧
    (connect_init isn base).1.send_param.unacked_seq = isn ∧
    (connect_init isn base).1.send_param.next = isn + 1 ∧
    (connect_init isn base).2 = ⟨isn, 0, tcpflags.SYN, []⟩ := by
  have hs : (1 <<< 31 : Nat) = 2147483648 := by
    rw [Nat.shiftLeft_eq]
  have hM : U32_MOD = 4294967296 := by norm_num [U32_MOD]
  rw [hs] at h2
  have hmod : (isn + 1) % U32_MOD = isn + 1 := by
    rw [hM]; exact Nat.mod_eq_of_lt (by omega)
  refine ⟨by simp [connect_init]; omega, by rw [hs]; simpa [connect_init] using h2,
    ?_, ?_, ?_⟩
  · simp [connect_init]
  · simp [connect_init, hmod]
  · simp [connect_init]

/-- C10 witness: ISN 1000 gives `initial_seq = 1000`, `unacked_seq = 1000`
and an unwrapped `next = 1001`. -/
theorem connect_isn_range_no_wrap_witness :
    (connect_init 1000 sock0).1.send_param.initial_seq ≠ 0 ∧
    (connect_init 1000 sock0).1.send_param.initial_seq < 1 <<< 31 ∧
    (connect_init 1000 sock0).1.send_param.unacked_seq = 1000 ∧
    (connect_init 1000 sock0).1.send_param.next = 1000 + 1 ∧
    (connect_init 1000 sock0).2 = ⟨1000, 0, tcpflags.SYN, []⟩ :=
  connect_isn_range_no_wrap 1000 sock0 (by decide) (by decide)

end ToyTCP
